import Mathlib

/-!
Verification of the code-execution dispatcher of `src/server.js` (the
`executeCode` and `cleanup` functions and the `LANGUAGES` registry).

Shallow embedding choices:
* A filesystem path is its list of components (`path.join dir name`
  appends a component, `path.dirname` drops the last one).
* The filesystem is a finite association list from paths to file contents;
  `existsSync`, `unlinkSync` and `writeFileSync` are embedded over it.
* The per-run nondeterminism of the JavaScript code is made explicit as
  arguments of `executeCode`: the platform flag (`process.platform ===
  "win32"`), the random `runId`, whether `fs.writeFileSync` throws, which
  `unlinkSync` calls throw during cleanup, and the outcome reported by
  `child_process.exec` to its callback (the error object with its `killed`
  flag and `message`, plus the captured `stdout` and `stderr` strings).
* The object passed to the dispatcher callback is embedded as a record of
  optional fields (`success`, `error`, `output`, `stderr`), mirroring the
  five object literals of the source.
* `LANGUAGES[lang]` is a JavaScript property access on a plain object
  literal, so it consults the prototype chain: besides the eight own
  entries it yields a truthy inherited value for every `Object.prototype`
  key (`"constructor"`, `"toString"`, `"__proto__"`, ...), and only truly
  absent keys give the falsy `undefined` that the `!config` guard
  catches. On an inherited value the code proceeds, writes
  `s_<runId>undefined` (both `config.filename` and `config.ext` are
  `undefined`), and then throws `TypeError` at `config.cmd(...)`, which
  escapes `executeCode` synchronously — so the embedding of `executeCode`
  returns either the callback's object or an escaped throw.
-/

/-- A filesystem path, as its list of components. -/
abbrev FsPath := List String

/-- The filesystem: an association list from paths to file contents. -/
abbrev FS := List (FsPath × String)

/-- `path.join dir name` for a single relative component. -/
def pathJoin (dir : FsPath) (name : String) : FsPath := dir ++ [name]

/-- `path.dirname`. -/
def dirname (p : FsPath) : FsPath := p.dropLast

/-- Rendering of a path for interpolation into a shell command string. -/
def pathStr (p : FsPath) : String := String.intercalate "/" p

/-- `fs.existsSync`. -/
def existsSync (fs : FS) (p : FsPath) : Bool := fs.any (fun e => e.1 == p)

/-- `fs.unlinkSync` (on the success path: the entry disappears). -/
def unlinkSync (fs : FS) (p : FsPath) : FS := fs.filter (fun e => e.1 != p)

/-- `fs.writeFileSync` (on the success path: the path now maps to the new contents). -/
def writeFileSync (fs : FS) (p : FsPath) (contents : String) : FS :=
  (p, contents) :: fs.filter (fun e => e.1 != p)

/-- `TEMP_DIR = path.join(__dirname, 'temp')`; the component `"__dirname"`
stands for the server's own directory. -/
def TEMP_DIR : FsPath := ["__dirname", "temp"]

/-- `TIMEOUT_MS = 10000`, the wall-clock limit handed to `exec`. -/
def TIMEOUT_MS : Nat := 10000

/-- One entry of the `LANGUAGES` registry: file extension, the command
builder `(f, dir, name) => string`, and the optional fixed file name. -/
structure LangConfig where
  ext : String
  cmd : FsPath → FsPath → String → String
  filename : Option String

/-- `LANGUAGES.javascript`. -/
def jsConfig : LangConfig :=
  { ext := ".js"
    cmd := fun f _ _ => "node \"" ++ pathStr f ++ "\""
    filename := none }

/-- `LANGUAGES.python` (the command depends on `process.platform`). -/
def pythonConfig (isWin : Bool) : LangConfig :=
  { ext := ".py"
    cmd := fun f _ _ =>
      if isWin then "python \"" ++ pathStr f ++ "\""
      else "python3 \"" ++ pathStr f ++ "\""
    filename := none }

/-- `LANGUAGES.java` (fixed file name `Main.java`, compile then run). -/
def javaConfig : LangConfig :=
  { ext := ".java"
    cmd := fun f dir _ =>
      "javac \"" ++ pathStr f ++ "\" && java -cp \"" ++ pathStr dir ++ "\" Main"
    filename := some "Main.java" }

/-- `LANGUAGES.cpp` (compile to `bin_<runId>`, then invoke it with the
platform executable suffix). -/
def cppConfig (isWin : Bool) : LangConfig :=
  { ext := ".cpp"
    cmd := fun f dir name =>
      let out := pathJoin dir name
      "g++ \"" ++ pathStr f ++ "\" -o \"" ++ pathStr out ++ "\" && \"" ++
        pathStr out ++ (if isWin then ".exe" else "") ++ "\""
    filename := none }

/-- `LANGUAGES.csharp`. -/
def csharpConfig : LangConfig :=
  { ext := ".cs"
    cmd := fun f dir name =>
      let out := pathJoin dir (name ++ ".exe")
      "mcs \"" ++ pathStr f ++ "\" -out:\"" ++ pathStr out ++ "\" && mono \"" ++
        pathStr out ++ "\""
    filename := none }

/-- `LANGUAGES.go`. -/
def goConfig : LangConfig :=
  { ext := ".go"
    cmd := fun f _ _ => "go run \"" ++ pathStr f ++ "\""
    filename := none }

/-- `LANGUAGES.rust`. -/
def rustConfig (isWin : Bool) : LangConfig :=
  { ext := ".rs"
    cmd := fun f dir name =>
      let out := pathJoin dir name
      "rustc \"" ++ pathStr f ++ "\" -o \"" ++ pathStr out ++ "\" && \"" ++
        pathStr out ++ (if isWin then ".exe" else "") ++ "\""
    filename := none }

/-- `LANGUAGES.php`. -/
def phpConfig : LangConfig :=
  { ext := ".php"
    cmd := fun f _ _ => "php \"" ++ pathStr f ++ "\""
    filename := none }

/-- The `LANGUAGES` registry: `LANGUAGES[lang]`, `none` when the key is
absent. The platform flag is threaded in because two commands read
`process.platform`. -/
def LANGUAGES (isWin : Bool) (lang : String) : Option LangConfig :=
  if lang = "javascript" then some jsConfig
  else if lang = "python" then some (pythonConfig isWin)
  else if lang = "java" then some javaConfig
  else if lang = "cpp" then some (cppConfig isWin)
  else if lang = "csharp" then some csharpConfig
  else if lang = "go" then some goConfig
  else if lang = "rust" then some (rustConfig isWin)
  else if lang = "php" then some phpConfig
  else none

/-- The property keys every plain object literal inherits from
`Object.prototype` in Node: accessing any of them on `LANGUAGES` yields a
truthy value (a function, or for `__proto__` the prototype object itself)
that is not a recipe. -/
def objectPrototypeKeys : List String :=
  ["constructor", "hasOwnProperty", "isPrototypeOf", "propertyIsEnumerable",
   "toLocaleString", "toString", "valueOf", "__defineGetter__",
   "__defineSetter__", "__lookupGetter__", "__lookupSetter__", "__proto__"]

/-- What the property access `LANGUAGES[lang]` evaluates to: an own entry
(a recipe), a truthy non-recipe inherited from `Object.prototype`, or
`undefined` (the only falsy case, the one `!config` catches). -/
inductive PropLookup where
  | ownRecipe (config : LangConfig)
  | inheritedTruthy
  | undef

/-- The property access `LANGUAGES[lang]` (line 64 of the source): own
entries shadow the prototype chain; absent keys that are not
`Object.prototype` keys give `undefined`. -/
def languagesAccess (isWin : Bool) (lang : String) : PropLookup :=
  match LANGUAGES isWin lang with
  | some config => PropLookup.ownRecipe config
  | none =>
    if objectPrototypeKeys.contains lang then PropLookup.inheritedTruthy
    else PropLookup.undef

/-- The object handed to the dispatcher callback, as a record of the
optional fields used by the five object literals of `executeCode`. -/
structure JsResult where
  success : Option Bool
  error : Option String
  output : Option String
  stderr : Option String
deriving DecidableEq, Repr

/-- `{ error: msg }` — the two configuration-error literals. -/
def configErrorResult (msg : String) : JsResult :=
  { success := none, error := some msg, output := none, stderr := none }

/-- `{ error: 'Execution Timed Out (Max 10s)', stderr: 'Process killed.' }`. -/
def timeoutResult : JsResult :=
  { success := none
    error := some "Execution Timed Out (Max 10s)"
    output := none
    stderr := some "Process killed." }

/-- `{ success: false, error: 'Execution Failed', stderr: s }`. -/
def failureResult (s : String) : JsResult :=
  { success := some false
    error := some "Execution Failed"
    output := none
    stderr := some s }

/-- `{ success: true, output: stdout, stderr: stderr }`. -/
def successResult (stdout stderr : String) : JsResult :=
  { success := some true
    error := none
    output := some stdout
    stderr := some stderr }

/-- The error object `exec` may pass to its callback: `err.killed` is set
when the child was killed by the timeout, `err.message` describes the
invocation error. -/
structure ExecError where
  killed : Bool
  message : String
deriving DecidableEq, Repr

/-- What `exec` reports to its callback: either `err` is null and the
process exited zero, or `err` is non-null. The captured `stdout` and
`stderr` are present in both cases. -/
inductive ExecOutcome where
  | completed (stdout stderr : String)
  | failed (err : ExecError) (stdout stderr : String)
deriving DecidableEq, Repr

/-- JavaScript `a || b` on strings: the empty string is falsy. -/
def jsOr (a b : String) : String := if a = "" then b else a

/-- One `if (fs.existsSync(p)) fs.unlinkSync(p)` step of `cleanup`;
`none` models `unlinkSync` throwing (which `faults` decides). -/
def unlinkIfExists (faults : FsPath → Bool) (fs : FS) (p : FsPath) : Option FS :=
  if existsSync fs p then
    if faults p then none else some (unlinkSync fs p)
  else some fs

/-- The fault oracle of a run in which no filesystem call throws. -/
def noFaults : FsPath → Bool := fun _ => false

/-- `cleanup(filePath, runId, ext)` of `src/server.js`: remove, in order,
the source file, `bin_<runId>`, `bin_<runId>.exe` (appending `".exe"` to
the joined path appends it to the final component) and `Main.class`, each
guarded by `existsSync`; the whole body is in a `try` whose `catch` logs
and swallows, so a throw stops the remaining removals but propagates
nothing (the `ext` parameter is unused by the body, kept for fidelity
with the source signature). -/
def cleanup (faults : FsPath → Bool) (fs : FS) (filePath : FsPath)
    (runId : String) (ext : String) : FS :=
  let dir := dirname filePath
  let binPath := pathJoin dir ("bin_" ++ runId)
  let binExePath := pathJoin dir ("bin_" ++ runId ++ ".exe")
  let classPath := pathJoin dir "Main.class"
  match unlinkIfExists faults fs filePath with
  | none => fs
  | some fs1 =>
    match unlinkIfExists faults fs1 binPath with
    | none => fs1
    | some fs2 =>
      match unlinkIfExists faults fs2 binExePath with
      | none => fs2
      | some fs3 =>
        match unlinkIfExists faults fs3 classPath with
        | none => fs3
        | some fs4 => fs4

/-- `config.filename || s_<runId><ext>` (line 69 of the source; the fixed
file names are non-empty strings, so JavaScript truthiness coincides with
the option being present). -/
def sourceFileName (config : LangConfig) (runId : String) : String :=
  match config.filename with
  | some n => n
  | none => "s_" ++ runId ++ config.ext

/-- The classification the `exec` callback performs on `(err, stdout,
stderr)` (lines 88-101 of the source): `err` null → the success literal;
`err.killed` → the timeout literal; otherwise the failure literal carrying
`stderr || err.message`. -/
def classifyOutcome (outcome : ExecOutcome) : JsResult :=
  match outcome with
  | ExecOutcome.completed stdout stderr => successResult stdout stderr
  | ExecOutcome.failed err _ stderr =>
    if err.killed then timeoutResult
    else failureResult (jsOr stderr err.message)

/-- The observable effects of one `executeCode` call: the object passed to
the callback, the final filesystem, the paths written, and the command
handed to `exec` (if any). -/
structure ExecTrace where
  result : JsResult
  fs : FS
  writes : List FsPath
  invoked : Option String
deriving DecidableEq, Repr

/-- What one `executeCode` call does at its boundary: either the callback
receives an object (the normal protocol), or an exception escapes
`executeCode` synchronously — then there is no callback, no `exec` and no
cleanup, and the constructor carries the exception message, the
filesystem left behind, and the paths that had been written. -/
inductive ExecBehavior where
  | returns (trace : ExecTrace)
  | throws (message : String) (fs : FS) (writes : List FsPath)
deriving DecidableEq, Repr

/-- The object passed to the callback; `none` when the call threw instead
of calling back. -/
def ExecBehavior.result? : ExecBehavior → Option JsResult
  | ExecBehavior.returns t => some t.result
  | ExecBehavior.throws _ _ _ => none

/-- The filesystem at the moment control leaves `executeCode`. -/
def ExecBehavior.finalFs : ExecBehavior → FS
  | ExecBehavior.returns t => t.fs
  | ExecBehavior.throws _ fs _ => fs

/-- The paths written before control left `executeCode`. -/
def ExecBehavior.allWrites : ExecBehavior → List FsPath
  | ExecBehavior.returns t => t.writes
  | ExecBehavior.throws _ _ w => w

/-- The command handed to `exec`; `none` when `exec` was never reached. -/
def ExecBehavior.invoked? : ExecBehavior → Option String
  | ExecBehavior.returns t => t.invoked
  | ExecBehavior.throws _ _ _ => none

/-- The escaped exception message; `none` on a normal return. -/
def ExecBehavior.thrown? : ExecBehavior → Option String
  | ExecBehavior.returns _ => none
  | ExecBehavior.throws m _ _ => some m

/-- `executeCode(lang, code, callback)` of `src/server.js`, with the run's
nondeterminism (platform, runId, write failure, unlink faults, exec
outcome) as explicit arguments. Mirrors the source: evaluate the property
access `LANGUAGES[lang]`; a falsy `config` (only `undefined`) → error
object, nothing else; otherwise compute the file name
(`config.filename || s_<runId><ext>`, which on an inherited
`Object.prototype` value is `s_<runId>undefined` since both fields are
`undefined`) and path; write the source (a throw → error object, no
invocation); build the command — which on an inherited value throws
`TypeError: config.cmd is not a function` past `executeCode`, leaving the
written file behind; otherwise invoke `exec` with the timeout; in the
callback first `cleanup`, then classify `err`/`err.killed` into the
timeout, failure or success literal. -/
def executeCode (isWin : Bool) (runId : String) (writeFails : Bool)
    (faults : FsPath → Bool) (outcome : ExecOutcome)
    (fs : FS) (lang : String) (code : String) : ExecBehavior :=
  match languagesAccess isWin lang with
  | PropLookup.undef =>
    ExecBehavior.returns
      { result := configErrorResult ("Language '" ++ lang ++ "' not supported.")
        fs := fs
        writes := []
        invoked := none }
  | PropLookup.inheritedTruthy =>
    let fileName := "s_" ++ runId ++ "undefined"
    let filePath := pathJoin TEMP_DIR fileName
    if writeFails then
      ExecBehavior.returns
        { result := configErrorResult "Server failed to write file."
          fs := fs
          writes := []
          invoked := none }
    else
      ExecBehavior.throws "TypeError: config.cmd is not a function"
        (writeFileSync fs filePath code) [filePath]
  | PropLookup.ownRecipe config =>
    let fileName := sourceFileName config runId
    let filePath := pathJoin TEMP_DIR fileName
    if writeFails then
      ExecBehavior.returns
        { result := configErrorResult "Server failed to write file."
          fs := fs
          writes := []
          invoked := none }
    else
      let fs1 := writeFileSync fs filePath code
      let command := config.cmd filePath TEMP_DIR ("bin_" ++ runId)
      let fs2 := cleanup faults fs1 filePath runId config.ext
      ExecBehavior.returns
        { result := classifyOutcome outcome
          fs := fs2
          writes := [filePath]
          invoked := some command }

/-! ### Helper lemmas about the embedded filesystem calls -/

lemma existsSync_unlinkSync_self (fs : FS) (p : FsPath) :
    existsSync (unlinkSync fs p) p = false := by
  simp [existsSync, unlinkSync, List.any_eq_true, List.mem_filter]

lemma existsSync_unlinkSync_of_false (fs : FS) (p q : FsPath)
    (h : existsSync fs q = false) : existsSync (unlinkSync fs p) q = false := by
  simp only [existsSync, unlinkSync, List.any_eq_false, List.mem_filter,
    beq_iff_eq] at h ⊢
  intro e he
  exact h e he.1

lemma unlinkIfExists_noFaults (fs : FS) (p : FsPath) :
    unlinkIfExists noFaults fs p =
      some (if existsSync fs p then unlinkSync fs p else fs) := by
  by_cases h : existsSync fs p = true <;> simp [unlinkIfExists, noFaults, h]

lemma existsSync_condUnlink_self (fs : FS) (p : FsPath) :
    existsSync (if existsSync fs p then unlinkSync fs p else fs) p = false := by
  by_cases h : existsSync fs p = true
  · simpa [h] using existsSync_unlinkSync_self fs p
  · simp only [Bool.not_eq_true] at h
    simp [h]

lemma existsSync_condUnlink_of_false (fs : FS) (p q : FsPath)
    (h : existsSync fs q = false) :
    existsSync (if existsSync fs p then unlinkSync fs p else fs) q = false := by
  by_cases hp : existsSync fs p = true
  · simpa [hp] using existsSync_unlinkSync_of_false fs p q h
  · simp only [Bool.not_eq_true] at hp
    simpa [hp] using h

/-- A fault-free `cleanup` leaves none of its four target paths on the
filesystem, whichever of them existed beforehand. -/
lemma cleanup_noFaults_removes (fs : FS) (filePath : FsPath) (runId ext : String) :
    existsSync (cleanup noFaults fs filePath runId ext) filePath = false ∧
    existsSync (cleanup noFaults fs filePath runId ext)
      (pathJoin (dirname filePath) ("bin_" ++ runId)) = false ∧
    existsSync (cleanup noFaults fs filePath runId ext)
      (pathJoin (dirname filePath) ("bin_" ++ runId ++ ".exe")) = false ∧
    existsSync (cleanup noFaults fs filePath runId ext)
      (pathJoin (dirname filePath) "Main.class") = false := by
  simp only [cleanup, unlinkIfExists_noFaults]
  refine ⟨?_, ?_, ?_, ?_⟩
  · exact existsSync_condUnlink_of_false _ _ _
      (existsSync_condUnlink_of_false _ _ _
        (existsSync_condUnlink_of_false _ _ _
          (existsSync_condUnlink_self _ _)))
  · exact existsSync_condUnlink_of_false _ _ _
      (existsSync_condUnlink_of_false _ _ _
        (existsSync_condUnlink_self _ _))
  · exact existsSync_condUnlink_of_false _ _ _
      (existsSync_condUnlink_self _ _)
  · exact existsSync_condUnlink_self _ _

lemma dirname_pathJoin (dir : FsPath) (name : String) :
    dirname (pathJoin dir name) = dir := by
  simp [dirname, pathJoin]

/-! ### Unfolding lemmas for the control-flow arms of `executeCode` -/

lemma executeCode_unsupported (isWin : Bool) (runId : String) (writeFails : Bool)
    (faults : FsPath → Bool) (outcome : ExecOutcome) (fs : FS) (lang code : String)
    (h : LANGUAGES isWin lang = none)
    (hp : lang ∉ objectPrototypeKeys) :
    executeCode isWin runId writeFails faults outcome fs lang code =
      ExecBehavior.returns
        { result := configErrorResult ("Language '" ++ lang ++ "' not supported.")
          fs := fs
          writes := []
          invoked := none } := by
  simp [executeCode, languagesAccess, h, hp]

lemma executeCode_inherited (isWin : Bool) (runId : String)
    (faults : FsPath → Bool) (outcome : ExecOutcome) (fs : FS) (lang code : String)
    (h : LANGUAGES isWin lang = none)
    (hp : lang ∈ objectPrototypeKeys) :
    executeCode isWin runId false faults outcome fs lang code =
      ExecBehavior.throws "TypeError: config.cmd is not a function"
        (writeFileSync fs (pathJoin TEMP_DIR ("s_" ++ runId ++ "undefined")) code)
        [pathJoin TEMP_DIR ("s_" ++ runId ++ "undefined")] := by
  simp [executeCode, languagesAccess, h, hp]

lemma executeCode_writeFails (isWin : Bool) (runId : String)
    (faults : FsPath → Bool) (outcome : ExecOutcome) (fs : FS) (lang code : String)
    (config : LangConfig) (h : LANGUAGES isWin lang = some config) :
    executeCode isWin runId true faults outcome fs lang code =
      ExecBehavior.returns
        { result := configErrorResult "Server failed to write file."
          fs := fs
          writes := []
          invoked := none } := by
  simp [executeCode, languagesAccess, h]

lemma executeCode_run (isWin : Bool) (runId : String)
    (faults : FsPath → Bool) (outcome : ExecOutcome) (fs : FS) (lang code : String)
    (config : LangConfig) (h : LANGUAGES isWin lang = some config) :
    executeCode isWin runId false faults outcome fs lang code =
      ExecBehavior.returns
        { result := classifyOutcome outcome
          fs := cleanup faults
            (writeFileSync fs (pathJoin TEMP_DIR (sourceFileName config runId)) code)
            (pathJoin TEMP_DIR (sourceFileName config runId)) runId config.ext
          writes := [pathJoin TEMP_DIR (sourceFileName config runId)]
          invoked := some (config.cmd (pathJoin TEMP_DIR (sourceFileName config runId))
            TEMP_DIR ("bin_" ++ runId)) } := by
  simp [executeCode, languagesAccess, h]

/-! ### The claims -/

/-- C1: whenever the source file was written and the external process was
invoked (the recipe resolved and the write did not fail), then on every
exit path of `exec` — zero exit, non-zero exit, or timeout — the
filesystem handed back with the result is the one produced by `cleanup`,
and (when no removal throws) none of the four artifacts survives: the
source file at `sourcePath`, `bin_<runId>`, `bin_<runId>.exe`, and the
fixed `Main.class` in the working directory; absence of any of them is
tolerated since the initial filesystem is arbitrary. -/
theorem cleanup_on_every_exit_path (isWin : Bool) (runId : String)
    (outcome : ExecOutcome) (fs : FS) (lang code : String) (config : LangConfig)
    (h : LANGUAGES isWin lang = some config) :
    (executeCode isWin runId false noFaults outcome fs lang code).finalFs =
      cleanup noFaults
        (writeFileSync fs (pathJoin TEMP_DIR (sourceFileName config runId)) code)
        (pathJoin TEMP_DIR (sourceFileName config runId)) runId config.ext ∧
    existsSync (executeCode isWin runId false noFaults outcome fs lang code).finalFs
      (pathJoin TEMP_DIR (sourceFileName config runId)) = false ∧
    existsSync (executeCode isWin runId false noFaults outcome fs lang code).finalFs
      (pathJoin TEMP_DIR ("bin_" ++ runId)) = false ∧
    existsSync (executeCode isWin runId false noFaults outcome fs lang code).finalFs
      (pathJoin TEMP_DIR ("bin_" ++ runId ++ ".exe")) = false ∧
    existsSync (executeCode isWin runId false noFaults outcome fs lang code).finalFs
      (pathJoin TEMP_DIR "Main.class") = false := by
  have hrm := cleanup_noFaults_removes
    (writeFileSync fs (pathJoin TEMP_DIR (sourceFileName config runId)) code)
    (pathJoin TEMP_DIR (sourceFileName config runId)) runId config.ext
  rw [dirname_pathJoin] at hrm
  rw [executeCode_run isWin runId noFaults outcome fs lang code config h]
  exact ⟨rfl, hrm.1, hrm.2.1, hrm.2.2.1, hrm.2.2.2⟩

/-- Concrete instance of `cleanup_on_every_exit_path`: a JavaScript run on
an empty filesystem, exiting zero. -/
theorem cleanup_on_every_exit_path_witness :
    (executeCode false "0011223344556677" false noFaults
        (ExecOutcome.completed "out" "") [] "javascript" "console.log(1)").finalFs =
      cleanup noFaults
        (writeFileSync [] (pathJoin TEMP_DIR (sourceFileName jsConfig "0011223344556677"))
          "console.log(1)")
        (pathJoin TEMP_DIR (sourceFileName jsConfig "0011223344556677"))
        "0011223344556677" jsConfig.ext ∧
    existsSync (executeCode false "0011223344556677" false noFaults
        (ExecOutcome.completed "out" "") [] "javascript" "console.log(1)").finalFs
      (pathJoin TEMP_DIR (sourceFileName jsConfig "0011223344556677")) = false ∧
    existsSync (executeCode false "0011223344556677" false noFaults
        (ExecOutcome.completed "out" "") [] "javascript" "console.log(1)").finalFs
      (pathJoin TEMP_DIR ("bin_" ++ "0011223344556677")) = false ∧
    existsSync (executeCode false "0011223344556677" false noFaults
        (ExecOutcome.completed "out" "") [] "javascript" "console.log(1)").finalFs
      (pathJoin TEMP_DIR ("bin_" ++ "0011223344556677" ++ ".exe")) = false ∧
    existsSync (executeCode false "0011223344556677" false noFaults
        (ExecOutcome.completed "out" "") [] "javascript" "console.log(1)").finalFs
      (pathJoin TEMP_DIR "Main.class") = false :=
  cleanup_on_every_exit_path false "0011223344556677"
    (ExecOutcome.completed "out" "") [] "javascript" "console.log(1)" jsConfig rfl

/-- C3 counterexample: at a concrete timed-out execution the callback
object is exactly the timeout literal, which is not payload-free — it
carries a `stderr` field (the constant `"Process killed."`) and an
`error` field, refuting that the Timeout result kind carries no payload
fields. -/
theorem timeout_result_carries_payload_fields :
    (executeCode false "0011223344556677" false noFaults
        (ExecOutcome.failed { killed := true, message := "killed" }
          "partial out" "partial err")
        [] "javascript" "while(true);").result? = some timeoutResult ∧
    timeoutResult.stderr = some "Process killed." ∧
    timeoutResult.stderr ≠ none ∧
    timeoutResult.error ≠ none := by
  refine ⟨rfl, rfl, ?_, ?_⟩ <;> simp [timeoutResult]

/-- C3 (amended): a process killed by the timeout yields the timeout
result, which is distinct from every failure result; it carries only the
constant fields `error = "Execution Timed Out (Max 10s)"` and
`stderr = "Process killed."` (rather than no payload fields at all). -/
theorem timeout_kind_distinct_from_failure (isWin : Bool) (runId : String)
    (faults : FsPath → Bool) (fs : FS) (lang code : String) (config : LangConfig)
    (err : ExecError) (sout serr : String)
    (h : LANGUAGES isWin lang = some config) (hk : err.killed = true) :
    (executeCode isWin runId false faults (ExecOutcome.failed err sout serr)
        fs lang code).result? = some timeoutResult ∧
    (∀ s, timeoutResult ≠ failureResult s) ∧
    timeoutResult =
      { success := none
        error := some "Execution Timed Out (Max 10s)"
        output := none
        stderr := some "Process killed." } := by
  refine ⟨?_, ?_, rfl⟩
  · rw [executeCode_run isWin runId faults (ExecOutcome.failed err sout serr)
      fs lang code config h]
    simp [ExecBehavior.result?, classifyOutcome, hk]
  · intro s
    simp [timeoutResult, failureResult, JsResult.mk.injEq]

/-- Concrete instance of `timeout_kind_distinct_from_failure`: a Python
run killed by the timeout. -/
theorem timeout_kind_distinct_from_failure_witness :
    (executeCode false "aabbccddeeff0011" false noFaults
        (ExecOutcome.failed { killed := true, message := "killed" } "" "")
        [] "python" "while True: pass").result? = some timeoutResult ∧
    (∀ s, timeoutResult ≠ failureResult s) ∧
    timeoutResult =
      { success := none
        error := some "Execution Timed Out (Max 10s)"
        output := none
        stderr := some "Process killed." } :=
  timeout_kind_distinct_from_failure false "aabbccddeeff0011" noFaults
    [] "python" "while True: pass" (pythonConfig false)
    { killed := true, message := "killed" } "" "" rfl rfl

/-- C4: a non-zero exit not caused by the timeout yields the failure
result whose `stderr` field carries the captured standard error when that
string is non-empty, and otherwise the invocation error description
`err.message`. -/
theorem failure_carries_stderr_or_message (isWin : Bool) (runId : String)
    (faults : FsPath → Bool) (fs : FS) (lang code : String) (config : LangConfig)
    (err : ExecError) (sout serr : String)
    (h : LANGUAGES isWin lang = some config) (hk : err.killed = false) :
    (executeCode isWin runId false faults (ExecOutcome.failed err sout serr)
        fs lang code).result? = some (failureResult (jsOr serr err.message)) ∧
    (serr ≠ "" →
      (executeCode isWin runId false faults (ExecOutcome.failed err sout serr)
        fs lang code).result? = some (failureResult serr)) ∧
    (serr = "" →
      (executeCode isWin runId false faults (ExecOutcome.failed err sout serr)
        fs lang code).result? = some (failureResult err.message)) := by
  rw [executeCode_run isWin runId faults (ExecOutcome.failed err sout serr)
    fs lang code config h]
  refine ⟨by simp [ExecBehavior.result?, classifyOutcome, hk], ?_, ?_⟩
  · intro hne
    simp [ExecBehavior.result?, classifyOutcome, hk, jsOr, hne]
  · intro he
    simp [ExecBehavior.result?, classifyOutcome, hk, jsOr, he]

/-- Concrete instance of `failure_carries_stderr_or_message`: a Go run
exiting non-zero with a compiler diagnostic on standard error. -/
theorem failure_carries_stderr_or_message_witness :
    (executeCode false "aabb001122334455" false noFaults
        (ExecOutcome.failed { killed := false, message := "Command failed" }
          "" "syntax error")
        [] "go" "package main").result? =
      some (failureResult (jsOr "syntax error" "Command failed")) ∧
    ("syntax error" ≠ "" →
      (executeCode false "aabb001122334455" false noFaults
        (ExecOutcome.failed { killed := false, message := "Command failed" }
          "" "syntax error")
        [] "go" "package main").result? = some (failureResult "syntax error")) ∧
    ("syntax error" = "" →
      (executeCode false "aabb001122334455" false noFaults
        (ExecOutcome.failed { killed := false, message := "Command failed" }
          "" "syntax error")
        [] "go" "package main").result? = some (failureResult "Command failed")) :=
  failure_carries_stderr_or_message false "aabb001122334455" noFaults
    [] "go" "package main" goConfig
    { killed := false, message := "Command failed" } "" "syntax error" rfl rfl

/-- C5: a zero exit yields the success result carrying both captured
streams; the classification is `success = true` for every captured
`stderr`, including non-empty ones. -/
theorem success_carries_both_streams (isWin : Bool) (runId : String)
    (faults : FsPath → Bool) (fs : FS) (lang code : String) (config : LangConfig)
    (sout serr : String) (h : LANGUAGES isWin lang = some config) :
    (executeCode isWin runId false faults (ExecOutcome.completed sout serr)
        fs lang code).result? = some (successResult sout serr) ∧
    (successResult sout serr).success = some true ∧
    (successResult sout serr).output = some sout ∧
    (successResult sout serr).stderr = some serr := by
  rw [executeCode_run isWin runId faults (ExecOutcome.completed sout serr)
    fs lang code config h]
  exact ⟨rfl, rfl, rfl, rfl⟩

/-- Concrete instance of `success_carries_both_streams`: a PHP run that
exits zero while printing a diagnostic on standard error. -/
theorem success_carries_both_streams_witness :
    (executeCode false "ffee001122334455" false noFaults
        (ExecOutcome.completed "hello" "deprecation warning")
        [] "php" "echo 1;").result? =
      some (successResult "hello" "deprecation warning") ∧
    (successResult "hello" "deprecation warning").success = some true ∧
    (successResult "hello" "deprecation warning").output = some "hello" ∧
    (successResult "hello" "deprecation warning").stderr =
      some "deprecation warning" :=
  success_carries_both_streams false "ffee001122334455" noFaults
    [] "php" "echo 1;" phpConfig "hello" "deprecation warning" rfl

/-- C6 (the code at the failing input): for `languageId = "constructor"`
— a key with no recipe in the registry, but reached through the
prototype chain of the object literal — `executeCode` performs a
filesystem operation and returns no ConfigurationError at all: the source
is written to `s_<runId>undefined` in the shared temp directory, the call
then throws `TypeError: config.cmd is not a function` past its boundary
(no callback object is produced), and the written file is still present
when control escapes, since cleanup never ran. -/
theorem prototype_key_writes_file_and_no_config_error :
    (executeCode false "0011223344556677" false noFaults
        (ExecOutcome.completed "" "") [] "constructor" "print(1)") =
      ExecBehavior.throws "TypeError: config.cmd is not a function"
        (writeFileSync [] (pathJoin TEMP_DIR "s_0011223344556677undefined")
          "print(1)")
        [pathJoin TEMP_DIR "s_0011223344556677undefined"] ∧
    (executeCode false "0011223344556677" false noFaults
        (ExecOutcome.completed "" "") [] "constructor" "print(1)").result? =
      none ∧
    (executeCode false "0011223344556677" false noFaults
        (ExecOutcome.completed "" "") [] "constructor" "print(1)").allWrites =
      [pathJoin TEMP_DIR "s_0011223344556677undefined"] ∧
    existsSync (executeCode false "0011223344556677" false noFaults
        (ExecOutcome.completed "" "") [] "constructor" "print(1)").finalFs
      (pathJoin TEMP_DIR "s_0011223344556677undefined") = true := by
  refine ⟨rfl, rfl, rfl, rfl⟩

/-- C7: when writing the source file throws, `executeCode` returns the
write-failure configuration error immediately: the filesystem is
unchanged, nothing was written, and no external process is invoked. -/
theorem write_failure_no_invocation (isWin : Bool) (runId : String)
    (faults : FsPath → Bool) (outcome : ExecOutcome) (fs : FS)
    (lang code : String) (config : LangConfig)
    (h : LANGUAGES isWin lang = some config) :
    (executeCode isWin runId true faults outcome fs lang code).result? =
      some (configErrorResult "Server failed to write file.") ∧
    (executeCode isWin runId true faults outcome fs lang code).finalFs = fs ∧
    (executeCode isWin runId true faults outcome fs lang code).allWrites = [] ∧
    (executeCode isWin runId true faults outcome fs lang code).invoked? = none := by
  rw [executeCode_writeFails isWin runId faults outcome fs lang code config h]
  exact ⟨rfl, rfl, rfl, rfl⟩

/-- Concrete instance of `write_failure_no_invocation`: a Rust run whose
source write throws (disk full). -/
theorem write_failure_no_invocation_witness :
    (executeCode false "deadbeef00112233" true noFaults
        (ExecOutcome.completed "" "") [] "rust" "fn main()\x7b\x7d").result? =
      some (configErrorResult "Server failed to write file.") ∧
    (executeCode false "deadbeef00112233" true noFaults
        (ExecOutcome.completed "" "") [] "rust" "fn main()\x7b\x7d").finalFs = [] ∧
    (executeCode false "deadbeef00112233" true noFaults
        (ExecOutcome.completed "" "") [] "rust" "fn main()\x7b\x7d").allWrites = [] ∧
    (executeCode false "deadbeef00112233" true noFaults
        (ExecOutcome.completed "" "") [] "rust" "fn main()\x7b\x7d").invoked? =
      none :=
  write_failure_no_invocation false "deadbeef00112233" noFaults
    (ExecOutcome.completed "" "") [] "rust" "fn main()\x7b\x7d"
    (rustConfig false) rfl

/-- C8 (the code at the failing input): at `languageId = "toString"` —
likewise reached through the prototype chain — `executeCode` raises
`TypeError: config.cmd is not a function` past its own boundary: the
callback never receives any of the four result kinds, and the throw
happens after the source file was written, with no cleanup removing it. -/
theorem prototype_key_throws_past_boundary :
    (executeCode false "aabbccdd00112233" false noFaults
        (ExecOutcome.completed "" "") [] "toString" "x = 1").thrown? =
      some "TypeError: config.cmd is not a function" ∧
    (executeCode false "aabbccdd00112233" false noFaults
        (ExecOutcome.completed "" "") [] "toString" "x = 1").result? = none ∧
    (executeCode false "aabbccdd00112233" false noFaults
        (ExecOutcome.completed "" "") [] "toString" "x = 1").allWrites =
      [pathJoin TEMP_DIR "s_aabbccdd00112233undefined"] ∧
    existsSync (executeCode false "aabbccdd00112233" false noFaults
        (ExecOutcome.completed "" "") [] "toString" "x = 1").finalFs
      (pathJoin TEMP_DIR "s_aabbccdd00112233undefined") = true := by
  refine ⟨rfl, rfl, rfl, rfl⟩

/-- C9: a run killed by the timeout discards whatever the process wrote to
its streams before dying: for all captured `stdout` and `stderr`, the
callback object is the timeout literal — no `output` field, and a
`stderr` field that is the constant `"Process killed."` — so two runs
differing only in their captured streams return the same object. -/
theorem timeout_discards_captured_streams (isWin : Bool) (runId : String)
    (faults : FsPath → Bool) (fs : FS) (lang code : String) (config : LangConfig)
    (err : ExecError) (sout serr : String)
    (h : LANGUAGES isWin lang = some config) (hk : err.killed = true) :
    (executeCode isWin runId false faults (ExecOutcome.failed err sout serr)
        fs lang code).result? = some timeoutResult ∧
    timeoutResult.output = none ∧
    timeoutResult.stderr = some "Process killed." ∧
    (executeCode isWin runId false faults (ExecOutcome.failed err sout serr)
        fs lang code).result? =
      (executeCode isWin runId false faults
        (ExecOutcome.failed err "other stdout" "other stderr")
        fs lang code).result? := by
  rw [executeCode_run isWin runId faults (ExecOutcome.failed err sout serr)
    fs lang code config h,
    executeCode_run isWin runId faults
      (ExecOutcome.failed err "other stdout" "other stderr")
      fs lang code config h]
  refine ⟨?_, rfl, rfl, ?_⟩ <;> simp [ExecBehavior.result?, classifyOutcome, hk]

/-- Concrete instance of `timeout_discards_captured_streams`: a killed C#
run that had already produced output on both streams. -/
theorem timeout_discards_captured_streams_witness :
    (executeCode false "0f1e2d3c4b5a6978" false noFaults
        (ExecOutcome.failed { killed := true, message := "killed" }
          "printed before kill" "warned before kill")
        [] "csharp" "class P\x7b\x7d").result? = some timeoutResult ∧
    timeoutResult.output = none ∧
    timeoutResult.stderr = some "Process killed." ∧
    (executeCode false "0f1e2d3c4b5a6978" false noFaults
        (ExecOutcome.failed { killed := true, message := "killed" }
          "printed before kill" "warned before kill")
        [] "csharp" "class P\x7b\x7d").result? =
      (executeCode false "0f1e2d3c4b5a6978" false noFaults
        (ExecOutcome.failed { killed := true, message := "killed" }
          "other stdout" "other stderr")
        [] "csharp" "class P\x7b\x7d").result? :=
  timeout_discards_captured_streams false "0f1e2d3c4b5a6978" noFaults
    [] "csharp" "class P\x7b\x7d" csharpConfig
    { killed := true, message := "killed" }
    "printed before kill" "warned before kill" rfl rfl

/-- C10: `cleanup` is not confined to its own run's artifacts: for every
supported language — not only the fixed-filename Java recipe — a
fault-free run ends with no `Main.class` in the shared working directory,
whatever the initial filesystem contained (so a run of any language
removes the compiled class artifact a concurrent Java run had produced
there); and `cleanup` itself removes `Main.class` next to any source
path, for every `runId` and extension. -/
theorem cleanup_deletes_main_class_for_all_languages (isWin : Bool)
    (runId : String) (outcome : ExecOutcome) (fs : FS) (lang code : String)
    (config : LangConfig) (h : LANGUAGES isWin lang = some config) :
    existsSync (executeCode isWin runId false noFaults outcome fs lang code).finalFs
      (pathJoin TEMP_DIR "Main.class") = false ∧
    (∀ (fs2 : FS) (fp : FsPath) (rid ext2 : String),
      existsSync (cleanup noFaults fs2 fp rid ext2)
        (pathJoin (dirname fp) "Main.class") = false) := by
  constructor
  · have hrm := cleanup_noFaults_removes
      (writeFileSync fs (pathJoin TEMP_DIR (sourceFileName config runId)) code)
      (pathJoin TEMP_DIR (sourceFileName config runId)) runId config.ext
    rw [dirname_pathJoin] at hrm
    rw [executeCode_run isWin runId noFaults outcome fs lang code config h]
    exact hrm.2.2.2
  · intro fs2 fp rid ext2
    exact (cleanup_noFaults_removes fs2 fp rid ext2).2.2.2

/-- Concrete instance of `cleanup_deletes_main_class_for_all_languages`:
a Python run against a filesystem already holding the `Main.class` of a
concurrent Java run; the Python run's cleanup removes it. -/
theorem cleanup_deletes_main_class_witness :
    existsSync (executeCode false "1234567890abcdef" false noFaults
        (ExecOutcome.completed "hi" "")
        [(pathJoin TEMP_DIR "Main.class", "java bytecode of another run")]
        "python" "print(1)").finalFs
      (pathJoin TEMP_DIR "Main.class") = false ∧
    (∀ (fs2 : FS) (fp : FsPath) (rid ext2 : String),
      existsSync (cleanup noFaults fs2 fp rid ext2)
        (pathJoin (dirname fp) "Main.class") = false) :=
  cleanup_deletes_main_class_for_all_languages false "1234567890abcdef"
    (ExecOutcome.completed "hi" "")
    [(pathJoin TEMP_DIR "Main.class", "java bytecode of another run")]
    "python" "print(1)" (pythonConfig false) rfl

/-- C2 (supporting evidence at the failing input): for an infinitely
looping C++ submission the single `exec` invocation is the compound shell
command that makes the compiled binary a grandchild of the shell — `g++
... && <binary>` — run under a 10000 ms timeout; whether the timeout kill
reaches that grandchild is operating-system process semantics outside
this embedding. -/
theorem cpp_run_invokes_compound_shell_command :
    (executeCode false "0011223344556677" false noFaults
        (ExecOutcome.failed { killed := true, message := "timed out" } "" "")
        [] "cpp" "int main()\x7bfor(;;);\x7d").invoked? =
      some ("g++ \"__dirname/temp/s_0011223344556677.cpp\" -o \"__dirname/temp/bin_0011223344556677\" && \"__dirname/temp/bin_0011223344556677\"") ∧
    TIMEOUT_MS = 10000 := by
  exact ⟨rfl, rfl⟩
